import Mathlib

/-!
Verification of the CherryLed "Orient Custom Shape" Blender add-on
(src/orient_custom_shape.py), a shallow embedding of the operator
`BONE_OT_orient_custom_shape.execute` and proofs of the spec claims.

Modelling conventions:
* 3D vectors and 3x3 matrices are over ℤ (exact arithmetic; the Python
  code uses floats, but every claim is about the algebraic structure of
  the computation — only ring operations +, *, no division — which the
  spec itself states up to floating-point tolerance).
* A `rotation_euler` field is modelled by the rotation it denotes, as a
  3x3 matrix.  `mathutils` `Euler.rotate(other)` composes as
  `new = other ∘ old`, i.e. matrix product `other * old`; the reset
  `(0.0, 0.0, 0.0)` denotes the identity rotation.
* `bpy.data.objects[name]` lookups are modelled by index lookups into the
  state's object store; `bpy.context.active_object` resolves directly to
  the armature object (in Blender the name round-trip through
  `bpy.data.objects` yields the very same object).
* A raised Python exception (e.g. `AttributeError` from `.name` on
  `None`, `KeyError` from a failed collection lookup) is modelled by
  `Except.error`; since the exception propagates out of `execute` before
  any assignment statement runs, an `Except.error` outcome carries no
  state and the host state is unchanged.
* `self.report(flags, msg)` is modelled by appending `(flag, msg)` to the
  state's report log, with the flag string exactly as in the source.
-/

namespace OrientCustomShape

/-- A 3D vector with exact integer coordinates (models `mathutils.Vector`). -/
structure Vec3 where
  x : ℤ
  y : ℤ
  z : ℤ
deriving DecidableEq, Repr

/-- Componentwise vector addition (models `Vector.__add__` / `+=`). -/
def Vec3.add (a b : Vec3) : Vec3 :=
  ⟨a.x + b.x, a.y + b.y, a.z + b.z⟩

/-- Scalar multiple of a vector (models `float * Vector`). -/
def Vec3.smul (c : ℤ) (v : Vec3) : Vec3 :=
  ⟨c * v.x, c * v.y, c * v.z⟩

/-- Dot product of two vectors. -/
def Vec3.dot (a b : Vec3) : ℤ :=
  a.x * b.x + a.y * b.y + a.z * b.z

/-- A 3x3 matrix given by its three rows (models `mathutils.Matrix((r0, r1, r2))`,
which builds the matrix whose rows are the given vectors). -/
structure Mat3 where
  r0 : Vec3
  r1 : Vec3
  r2 : Vec3
deriving DecidableEq, Repr

/-- Matrix transpose (models `Matrix.transposed()`). -/
def Mat3.transposed (m : Mat3) : Mat3 :=
  ⟨⟨m.r0.x, m.r1.x, m.r2.x⟩, ⟨m.r0.y, m.r1.y, m.r2.y⟩, ⟨m.r0.z, m.r1.z, m.r2.z⟩⟩

/-- Matrix product (rows of `a` against columns of `b`). -/
def Mat3.mul (a b : Mat3) : Mat3 :=
  ⟨⟨a.r0.dot b.transposed.r0, a.r0.dot b.transposed.r1, a.r0.dot b.transposed.r2⟩,
   ⟨a.r1.dot b.transposed.r0, a.r1.dot b.transposed.r1, a.r1.dot b.transposed.r2⟩,
   ⟨a.r2.dot b.transposed.r0, a.r2.dot b.transposed.r1, a.r2.dot b.transposed.r2⟩⟩

/-- Matrix-vector product (models `Vector.rotate(matrix)`: `v := M @ v`). -/
def Mat3.mulVec (m : Mat3) (v : Vec3) : Vec3 :=
  ⟨m.r0.dot v, m.r1.dot v, m.r2.dot v⟩

/-- The identity matrix; the rotation denoted by the Euler `(0.0, 0.0, 0.0)`. -/
def Mat3.idRot : Mat3 :=
  ⟨⟨1, 0, 0⟩, ⟨0, 1, 0⟩, ⟨0, 0, 1⟩⟩

/-- An armature-space bone (`armature.data.bones[name]`): local basis axes
`x_axis`, `y_axis`, `z_axis`, the `head_local` start point, the `length`
scalar, and at most one `parent` bone.  The nesting of `parent` makes the
parent relation acyclic by construction, matching the data-model invariant. -/
inductive Bone where
  | root : Vec3 → Vec3 → Vec3 → Vec3 → ℤ → Bone
  | child : Vec3 → Vec3 → Vec3 → Vec3 → ℤ → Bone → Bone
deriving DecidableEq, Repr

/-- The bone's `x_axis`. -/
def Bone.x_axis : Bone → Vec3
  | .root v _ _ _ _ => v
  | .child v _ _ _ _ _ => v

/-- The bone's `y_axis`. -/
def Bone.y_axis : Bone → Vec3
  | .root _ v _ _ _ => v
  | .child _ v _ _ _ _ => v

/-- The bone's `z_axis`. -/
def Bone.z_axis : Bone → Vec3
  | .root _ _ v _ _ => v
  | .child _ _ v _ _ _ => v

/-- The bone's `head_local`. -/
def Bone.head_local : Bone → Vec3
  | .root _ _ _ v _ => v
  | .child _ _ _ v _ _ => v

/-- The bone's `length`. -/
def Bone.length : Bone → ℤ
  | .root _ _ _ _ l => l
  | .child _ _ _ _ l _ => l

/-- The bone's `parent` (zero or one parent; a `root` bone has none). -/
def Bone.parent : Bone → Option Bone
  | .root _ _ _ _ _ => none
  | .child _ _ _ _ _ p => some p

/-- `bone.parent_recursive`: the list `[parent, grandparent, ..., root]`
obtained by following the parent relation until no parent remains. -/
def Bone.parent_recursive : Bone → List Bone
  | .root _ _ _ _ _ => []
  | .child _ _ _ _ _ p => p :: p.parent_recursive

/-- The armature object: its own `location`, `rotation_euler` (as the rotation
matrix it denotes), `scale`, and the bone collection `armature.data.bones`. -/
structure ArmatureObj where
  location : Vec3
  rotation_euler : Mat3
  scale : Vec3
  bones : List Bone
deriving DecidableEq

/-- The active pose bone (`bpy.context.active_pose_bone`): its `name` is
modelled as the index of the underlying bone in `armature.data.bones`, and
`custom_shape` is an optional reference (index into the object store). -/
structure PoseBone where
  boneIdx : Nat
  custom_shape : Option Nat
deriving DecidableEq, Repr

/-- A custom-shape object's mutable transform fields. -/
structure ShapeObject where
  location : Vec3
  rotation_euler : Mat3
  scale : Vec3
deriving DecidableEq, Repr

/-- The read context of one invocation (`bpy.context`). -/
structure Ctx where
  active_object : Option ArmatureObj
  active_pose_bone : Option PoseBone
deriving DecidableEq

/-- The mutable host state touched by the operator: the shape-object store
(`bpy.data.objects`, restricted to shape objects), the per-bone `show_wire`
display flags (indexed like `armature.data.bones`), and the operator report
log (`self.report` calls as (flag, message) pairs). -/
structure State where
  objects : List ShapeObject
  show_wire : List Bool
  reports : List (String × String)
deriving DecidableEq, Repr

/-- The incremental rotation accumulation of the `for boneRotation in
boneChain` loop (lines 93-95): starting from `r0`, each step rotates the
running state by `Matrix((b.x_axis, b.y_axis, b.z_axis)).transposed()`,
i.e. `r := M.mul r` since `Euler.rotate` composes on the left. -/
def rotAccum (chain : List Bone) (r0 : Mat3) : Mat3 :=
  chain.foldl (fun r b => (Mat3.mk b.x_axis b.y_axis b.z_axis).transposed.mul r) r0

/-- The warning message string of line 111. -/
def scaleWarning : String × String :=
  ("Warning", "Armature should have a scale factor of 1.0 to match bone shape properly")

/-- Shallow embedding of `BONE_OT_orient_custom_shape.execute`
(src/orient_custom_shape.py lines 75-113).  `Except.error` models a raised
Python exception (which propagates before any state write); `Except.ok`
carries the updated state and the returned operator result. -/
def execute (ctx : Ctx) (st : State) : Except String (State × String) :=
  -- line 76: `bpy.context.active_object.name` (AttributeError on None);
  -- line 77: the name lookup resolves back to the active object itself.
  match ctx.active_object with
  | none => Except.error "AttributeError"
  | some armature =>
    -- lines 79-80: `bpy.context.active_pose_bone.name` (AttributeError on None).
    match ctx.active_pose_bone with
    | none => Except.error "AttributeError"
    | some activePoseBone =>
      -- line 81: `armature.data.bones[boneName]` (KeyError on a missing key).
      match armature.bones[activePoseBone.boneIdx]? with
      | none => Except.error "KeyError"
      | some bone =>
        -- line 83: `activePoseBone.custom_shape.name` (AttributeError on None).
        match activePoseBone.custom_shape with
        | none => Except.error "AttributeError"
        | some objectIdx =>
          -- line 84: `bpy.data.objects[objectName]` (KeyError on a missing key).
          match st.objects[objectIdx]? with
          | none => Except.error "KeyError"
          | some shape0 =>
            -- line 87: `shapeObject.rotation_euler = (0.0, 0.0, 0.0)`.
            let shape1 : ShapeObject := { shape0 with rotation_euler := Mat3.idRot }
            -- lines 88-89: `boneChain = bone.parent_recursive; boneChain.insert(0, bone)`.
            let boneChain : List Bone := bone :: bone.parent_recursive
            -- lines 93-95: the rotation-accumulation loop.
            let shape2 : ShapeObject :=
              { shape1 with rotation_euler := rotAccum boneChain shape1.rotation_euler }
            -- line 98: `shapeObject.location = bone.head_local`.
            -- line 99: `shapeObject.scale = bone.length * Vector((1.0, 1.0, 1.0))`.
            let shape3 : ShapeObject :=
              { shape2 with location := bone.head_local,
                            scale := Vec3.smul bone.length ⟨1, 1, 1⟩ }
            -- lines 102-105: `rotationMatrix = armature.rotation_euler`;
            -- `shapeObject.rotation_euler.rotate(rotationMatrix)`;
            -- `shapeObject.location.rotate(rotationMatrix)`;
            -- `shapeObject.location += armature.location`.
            let shape4 : ShapeObject :=
              { shape3 with
                  rotation_euler := armature.rotation_euler.mul shape3.rotation_euler,
                  location := (armature.rotation_euler.mulVec shape3.location).add
                                armature.location }
            -- lines 108-111: warning report when the armature scale is not 1.
            let scale := armature.scale
            let reports1 : List (String × String) :=
              if scale.x ≠ 1 ∨ scale.y ≠ 1 ∨ scale.z ≠ 1 then
                st.reports ++ [scaleWarning]
              else
                st.reports
            -- line 91 (`bone.show_wire = True`) and the shape-object writes,
            -- collected into the final state; line 113: `return {'FINISHED'}`.
            Except.ok ({ objects := st.objects.set objectIdx shape4,
                         show_wire := st.show_wire.set activePoseBone.boneIdx true,
                         reports := reports1 }, "FINISHED")

/-! Spec-side definitions (refinement targets), written from the spec's own
words in §4, steps 1-6, to be compared with the embedding of the source. -/

/-- The spec's bone chain (§4 step 2): start with the target bone, then
repeatedly follow the parent relation, target first out to the root. -/
def specBoneChain (b : Bone) : List Bone :=
  b :: b.parent_recursive

/-- The spec's resulting shape rotation (§4 steps 1, 3 and 6): start from the
identity (the reset), fold the chain target-first, applying as an incremental
rotation the transpose of the matrix whose rows are the bone's axes, and
finally apply the armature's own rotation on top. -/
def specShapeRotation (b : Bone) (arm : ArmatureObj) : Mat3 :=
  arm.rotation_euler.mul
    ((specBoneChain b).foldl
      (fun r bb => (Mat3.mk bb.x_axis bb.y_axis bb.z_axis).transposed.mul r)
      Mat3.idRot)

/-- The spec's resulting shape location (§4 steps 4 and 6): the target bone's
`head_local`, rotated by the armature's rotation, plus the armature's location. -/
def specShapeLocation (b : Bone) (arm : ArmatureObj) : Vec3 :=
  (arm.rotation_euler.mulVec b.head_local).add arm.location

/-- The spec's resulting shape scale (§4 step 5): the bone's length replicated
across all three axes. -/
def specShapeScale (b : Bone) : Vec3 :=
  ⟨b.length, b.length, b.length⟩

/-- The shape transform that a successful run writes, as one record; used to
state what `execute` produces. -/
def writtenShape (bone : Bone) (arm : ArmatureObj) : ShapeObject :=
  { location := (arm.rotation_euler.mulVec bone.head_local).add arm.location,
    rotation_euler := arm.rotation_euler.mul
      (rotAccum (bone :: bone.parent_recursive) Mat3.idRot),
    scale := Vec3.smul bone.length ⟨1, 1, 1⟩ }

/-- Unfolding lemma: on a successful invocation, `execute` returns exactly the
state whose object store has the written shape at the custom-shape index, whose
`show_wire` flag of the active bone is set, and whose report log gains the
scale warning exactly when the armature scale is not (1,1,1). -/
theorem execute_ok (ctx : Ctx) (st : State) (arm : ArmatureObj) (pb : PoseBone)
    (bone : Bone) (oi : Nat) (sh0 : ShapeObject)
    (hao : ctx.active_object = some arm)
    (hpb : ctx.active_pose_bone = some pb)
    (hb : arm.bones[pb.boneIdx]? = some bone)
    (hcs : pb.custom_shape = some oi)
    (hsh : st.objects[oi]? = some sh0) :
    execute ctx st = Except.ok
      ({ objects := st.objects.set oi (writtenShape bone arm),
         show_wire := st.show_wire.set pb.boneIdx true,
         reports := if arm.scale.x ≠ 1 ∨ arm.scale.y ≠ 1 ∨ arm.scale.z ≠ 1 then
                      st.reports ++ [scaleWarning]
                    else st.reports }, "FINISHED") := by
  simp only [execute, hao, hpb, hb, hcs, hsh, writtenShape]

/-! Concrete fixtures for witnesses and counterexamples.  The rotations are
quarter-turns about the coordinate axes: exact integer matrices whose rows
(and columns) are orthonormal triples, as the bone-basis invariant demands. -/

/-- Quarter-turn rotation about the x-axis. -/
def rotX : Mat3 :=
  ⟨⟨1, 0, 0⟩, ⟨0, 0, -1⟩, ⟨0, 1, 0⟩⟩

/-- Quarter-turn rotation about the y-axis. -/
def rotY : Mat3 :=
  ⟨⟨0, 0, 1⟩, ⟨0, 1, 0⟩, ⟨-1, 0, 0⟩⟩

/-- Quarter-turn rotation about the z-axis. -/
def rotZ : Mat3 :=
  ⟨⟨0, -1, 0⟩, ⟨1, 0, 0⟩, ⟨0, 0, 1⟩⟩

/-- A bone whose loop matrix `Matrix((x_axis, y_axis, z_axis)).transposed()`
equals `R`: its axes are the columns of `R`. -/
def boneWithBasis (R : Mat3) (head : Vec3) (len : ℤ) : Option Bone → Bone
  | none => .root R.transposed.r0 R.transposed.r1 R.transposed.r2 head len
  | some p => .child R.transposed.r0 R.transposed.r1 R.transposed.r2 head len p

/-- A root bone for the generic fixtures. -/
def exBoneRoot : Bone :=
  boneWithBasis rotX ⟨1, 2, 3⟩ 2 none

/-- The generic target bone: one ancestor, head (4,5,6), length 3. -/
def exBone : Bone :=
  boneWithBasis rotY ⟨4, 5, 6⟩ 3 (some exBoneRoot)

/-- The generic armature: offset location, a nontrivial rotation, unit scale. -/
def exArm : ArmatureObj :=
  { location := ⟨5, 0, 0⟩, rotation_euler := rotZ, scale := ⟨1, 1, 1⟩,
    bones := [exBone] }

/-- The generic active pose bone: bone 0, custom shape object 0. -/
def exPB : PoseBone :=
  { boneIdx := 0, custom_shape := some 0 }

/-- A prior shape transform (arbitrary stale values). -/
def exShape0 : ShapeObject :=
  { location := ⟨9, 9, 9⟩, rotation_euler := rotZ, scale := ⟨2, 2, 2⟩ }

/-- The generic prior state: one shape object, one show-wire flag, no reports. -/
def exSt : State :=
  { objects := [exShape0], show_wire := [false], reports := [] }

/-- The generic context: armature active, pose bone active. -/
def exCtx : Ctx :=
  { active_object := some exArm, active_pose_bone := some exPB }

/-- Claim C1: on every successful invocation, the written shape rotation equals
the spec's fold: reset to identity, build the chain [target, parent, ..., root],
apply each bone's transposed row-basis matrix as an incremental rotation in
target-first order, and finally apply the armature's rotation on top. -/
theorem claim1_rotation_is_spec_fold (ctx : Ctx) (st : State) (arm : ArmatureObj)
    (pb : PoseBone) (bone : Bone) (oi : Nat) (sh0 : ShapeObject)
    (hao : ctx.active_object = some arm)
    (hpb : ctx.active_pose_bone = some pb)
    (hb : arm.bones[pb.boneIdx]? = some bone)
    (hcs : pb.custom_shape = some oi)
    (hsh : st.objects[oi]? = some sh0) :
    ∃ st1 sh, execute ctx st = Except.ok (st1, "FINISHED") ∧
      st1.objects[oi]? = some sh ∧
      sh.rotation_euler = specShapeRotation bone arm := by
  have hlt : oi < st.objects.length := (List.getElem?_eq_some_iff.mp hsh).1
  refine ⟨_, writtenShape bone arm,
    execute_ok ctx st arm pb bone oi sh0 hao hpb hb hcs hsh, ?_, rfl⟩
  exact List.getElem?_set_self hlt

theorem claim1_witness :
    exCtx.active_object = some exArm ∧ exCtx.active_pose_bone = some exPB ∧
    exArm.bones[exPB.boneIdx]? = some exBone ∧ exPB.custom_shape = some 0 ∧
    exSt.objects[0]? = some exShape0 ∧
    (∃ st1 sh, execute exCtx exSt = Except.ok (st1, "FINISHED") ∧
      st1.objects[0]? = some sh ∧
      sh.rotation_euler = specShapeRotation exBone exArm) :=
  ⟨rfl, rfl, rfl, rfl, rfl,
    claim1_rotation_is_spec_fold exCtx exSt exArm exPB exBone 0 exShape0
      rfl rfl rfl rfl rfl⟩

/-- Claim C4: on every successful invocation the written shape scale is the
bone's length replicated on all three axes; the armature's scale (universally
quantified here, hence arbitrary) is never folded into it. -/
theorem claim4_scale_is_length (ctx : Ctx) (st : State) (arm : ArmatureObj)
    (pb : PoseBone) (bone : Bone) (oi : Nat) (sh0 : ShapeObject)
    (hao : ctx.active_object = some arm)
    (hpb : ctx.active_pose_bone = some pb)
    (hb : arm.bones[pb.boneIdx]? = some bone)
    (hcs : pb.custom_shape = some oi)
    (hsh : st.objects[oi]? = some sh0) :
    ∃ st1 sh, execute ctx st = Except.ok (st1, "FINISHED") ∧
      st1.objects[oi]? = some sh ∧
      sh.scale = specShapeScale bone := by
  have hlt : oi < st.objects.length := (List.getElem?_eq_some_iff.mp hsh).1
  refine ⟨_, writtenShape bone arm,
    execute_ok ctx st arm pb bone oi sh0 hao hpb hb hcs hsh, ?_, ?_⟩
  · exact List.getElem?_set_self hlt
  · simp [writtenShape, Vec3.smul, specShapeScale]

/-- A root bone with identity axes, head at the origin and length 7, for the
scale-law witness. -/
def exBoneLen : Bone :=
  boneWithBasis Mat3.idRot ⟨0, 0, 0⟩ 7 none

/-- An armature with identity location/rotation/scale owning `exBoneLen`. -/
def exArmId : ArmatureObj :=
  { location := ⟨0, 0, 0⟩, rotation_euler := Mat3.idRot, scale := ⟨1, 1, 1⟩,
    bones := [exBoneLen] }

/-- Context for the scale-law witness: identity armature, root bone active. -/
def exCtxId : Ctx :=
  { active_object := some exArmId, active_pose_bone := some exPB }

theorem claim4_witness :
    exCtxId.active_object = some exArmId ∧ exCtxId.active_pose_bone = some exPB ∧
    exArmId.bones[exPB.boneIdx]? = some exBoneLen ∧ exPB.custom_shape = some 0 ∧
    exSt.objects[0]? = some exShape0 ∧
    (∃ st1 sh, execute exCtxId exSt = Except.ok (st1, "FINISHED") ∧
      st1.objects[0]? = some sh ∧
      sh.scale = specShapeScale exBoneLen) :=
  ⟨rfl, rfl, rfl, rfl, rfl,
    claim4_scale_is_length exCtxId exSt exArmId exPB exBoneLen 0 exShape0
      rfl rfl rfl rfl rfl⟩

/-- Claim C5: the written shape location is the target bone's `head_local`
rotated by the armature rotation plus the armature location, and it is not
chain-accumulated: any second invocation whose target bone has the same
`head_local` and whose armature has the same rotation and location (ancestors
and all other bone data arbitrary) writes the identical location. -/
theorem claim5_location_not_chain_accumulated
    (ctx ctx2 : Ctx) (st st2 : State) (arm arm2 : ArmatureObj)
    (pb pb2 : PoseBone) (bone bone2 : Bone) (oi oi2 : Nat) (sh0 sh02 : ShapeObject)
    (hao : ctx.active_object = some arm)
    (hpb : ctx.active_pose_bone = some pb)
    (hb : arm.bones[pb.boneIdx]? = some bone)
    (hcs : pb.custom_shape = some oi)
    (hsh : st.objects[oi]? = some sh0)
    (hao2 : ctx2.active_object = some arm2)
    (hpb2 : ctx2.active_pose_bone = some pb2)
    (hb2 : arm2.bones[pb2.boneIdx]? = some bone2)
    (hcs2 : pb2.custom_shape = some oi2)
    (hsh2 : st2.objects[oi2]? = some sh02)
    (hhead : bone2.head_local = bone.head_local)
    (hrot : arm2.rotation_euler = arm.rotation_euler)
    (hloc : arm2.location = arm.location) :
    ∃ st1 st2' sh sh2,
      execute ctx st = Except.ok (st1, "FINISHED") ∧
      execute ctx2 st2 = Except.ok (st2', "FINISHED") ∧
      st1.objects[oi]? = some sh ∧ st2'.objects[oi2]? = some sh2 ∧
      sh.location = specShapeLocation bone arm ∧
      sh2.location = sh.location := by
  have hlt : oi < st.objects.length := (List.getElem?_eq_some_iff.mp hsh).1
  have hlt2 : oi2 < st2.objects.length := (List.getElem?_eq_some_iff.mp hsh2).1
  refine ⟨_, _, writtenShape bone arm, writtenShape bone2 arm2,
    execute_ok ctx st arm pb bone oi sh0 hao hpb hb hcs hsh,
    execute_ok ctx2 st2 arm2 pb2 bone2 oi2 sh02 hao2 hpb2 hb2 hcs2 hsh2,
    List.getElem?_set_self hlt, List.getElem?_set_self hlt2, rfl, ?_⟩
  simp [writtenShape, hhead, hrot, hloc]

/-- A second fixture for the location-independence witness: same target head
and armature placement as `exCtx`, but the ancestor's `head_local` moved. -/
def exBoneRootMoved : Bone :=
  boneWithBasis rotX ⟨10, 20, 30⟩ 2 none

/-- Target bone over the moved ancestor (own `head_local` unchanged). -/
def exBoneMoved : Bone :=
  boneWithBasis rotY ⟨4, 5, 6⟩ 3 (some exBoneRootMoved)

/-- Armature identical to `exArm` except for the moved ancestor. -/
def exArmMoved : ArmatureObj :=
  { location := ⟨5, 0, 0⟩, rotation_euler := rotZ, scale := ⟨1, 1, 1⟩,
    bones := [exBoneMoved] }

/-- Context with the moved ancestor. -/
def exCtxMoved : Ctx :=
  { active_object := some exArmMoved, active_pose_bone := some exPB }

theorem claim5_witness :
    exBoneMoved.head_local = exBone.head_local ∧
    exArmMoved.rotation_euler = exArm.rotation_euler ∧
    exArmMoved.location = exArm.location ∧
    (∃ st1 st2' sh sh2,
      execute exCtx exSt = Except.ok (st1, "FINISHED") ∧
      execute exCtxMoved exSt = Except.ok (st2', "FINISHED") ∧
      st1.objects[0]? = some sh ∧ st2'.objects[0]? = some sh2 ∧
      sh.location = specShapeLocation exBone exArm ∧
      sh2.location = sh.location) :=
  ⟨rfl, rfl, rfl,
    claim5_location_not_chain_accumulated exCtx exCtxMoved exSt exSt exArm exArmMoved
      exPB exPB exBone exBoneMoved 0 0 exShape0 exShape0
      rfl rfl rfl rfl rfl rfl rfl rfl rfl rfl rfl rfl rfl⟩

/-- A context with an active armature but no active pose bone. -/
def exCtxNoPB : Ctx :=
  { active_object := some exArm, active_pose_bone := none }

/-- Claim C2, counterexample: invoking with no active pose bone does NOT
report failure through the operator-result channel — line 80 evaluates
`bpy.context.active_pose_bone.name` on `None`, raising an uncaught
`AttributeError`, so no operator result is ever returned (and no precondition
check or report call exists in the code).  The state is untouched only because
the failing access happens before any write. -/
theorem claim2_counterexample :
    execute exCtxNoPB exSt = Except.error "AttributeError" ∧
    ∀ out : State × String, execute exCtxNoPB exSt ≠ Except.ok out := by
  constructor
  · rfl
  · intro out h
    have h2 : (Except.error "AttributeError" : Except String (State × String)) =
        Except.ok out := Eq.trans (by rfl) h
    exact Except.noConfusion h2

/-- Claim C2, amended: when a precondition fails (no active object, no active
pose bone, or the active bone's custom-shape reference is unset), the
operation raises an exception before any mutation — the error outcome carries
no state write, so all state is left untouched — but it performs no
precondition check and reports nothing through the operator-result channel. -/
theorem claim2_amended_raises_before_mutation (ctx : Ctx) (st : State)
    (h : ctx.active_object = none ∨ ctx.active_pose_bone = none ∨
         ∃ pb, ctx.active_pose_bone = some pb ∧ pb.custom_shape = none) :
    ∃ msg, execute ctx st = Except.error msg := by
  rcases h with h | h | ⟨pb, hpb, hcs⟩
  · exact ⟨"AttributeError", by simp [execute, h]⟩
  · cases hao : ctx.active_object with
    | none => exact ⟨"AttributeError", by simp [execute, hao]⟩
    | some arm => exact ⟨"AttributeError", by simp [execute, hao, h]⟩
  · cases hao : ctx.active_object with
    | none => exact ⟨"AttributeError", by simp [execute, hao]⟩
    | some arm =>
      cases hb : arm.bones[pb.boneIdx]? with
      | none => exact ⟨"KeyError", by simp [execute, hao, hpb, hb]⟩
      | some bone => exact ⟨"AttributeError", by simp [execute, hao, hpb, hb, hcs]⟩

theorem claim2_witness :
    (exCtxNoPB.active_object = none ∨ exCtxNoPB.active_pose_bone = none ∨
      ∃ pb, exCtxNoPB.active_pose_bone = some pb ∧ pb.custom_shape = none) ∧
    ∃ msg, execute exCtxNoPB exSt = Except.error msg :=
  ⟨Or.inr (Or.inl rfl),
    claim2_amended_raises_before_mutation exCtxNoPB exSt (Or.inr (Or.inl rfl))⟩

/-- Claim C3: on every successful invocation the full transform is computed
and written to the shape object; when the armature scale is not exactly
(1,1,1) on some axis the warning is surfaced (appended to the report log) and
the run still completes with FINISHED, and when the scale is exactly (1,1,1)
no warning is surfaced. -/
theorem claim3_scale_warning_nonfatal (ctx : Ctx) (st : State) (arm : ArmatureObj)
    (pb : PoseBone) (bone : Bone) (oi : Nat) (sh0 : ShapeObject)
    (hao : ctx.active_object = some arm)
    (hpb : ctx.active_pose_bone = some pb)
    (hb : arm.bones[pb.boneIdx]? = some bone)
    (hcs : pb.custom_shape = some oi)
    (hsh : st.objects[oi]? = some sh0) :
    ∃ st1 sh, execute ctx st = Except.ok (st1, "FINISHED") ∧
      st1.objects[oi]? = some sh ∧
      sh.location = specShapeLocation bone arm ∧
      sh.rotation_euler = specShapeRotation bone arm ∧
      sh.scale = specShapeScale bone ∧
      ((arm.scale.x ≠ 1 ∨ arm.scale.y ≠ 1 ∨ arm.scale.z ≠ 1) →
        st1.reports = st.reports ++ [scaleWarning]) ∧
      (arm.scale = ⟨1, 1, 1⟩ → st1.reports = st.reports) := by
  have hlt : oi < st.objects.length := (List.getElem?_eq_some_iff.mp hsh).1
  refine ⟨_, writtenShape bone arm,
    execute_ok ctx st arm pb bone oi sh0 hao hpb hb hcs hsh,
    List.getElem?_set_self hlt, rfl, rfl, ?_, ?_, ?_⟩
  · simp [writtenShape, Vec3.smul, specShapeScale]
  · intro h
    exact if_pos h
  · intro h
    have hno : ¬(arm.scale.x ≠ 1 ∨ arm.scale.y ≠ 1 ∨ arm.scale.z ≠ 1) := by
      rw [h]
      simp
    exact if_neg hno

/-- An armature with non-unit scale (1,1,2), for the warning-trigger witness. -/
def exArmScaled : ArmatureObj :=
  { location := ⟨0, 0, 0⟩, rotation_euler := Mat3.idRot, scale := ⟨1, 1, 2⟩,
    bones := [exBoneLen] }

/-- Context whose active armature has scale (1,1,2). -/
def exCtxScaled : Ctx :=
  { active_object := some exArmScaled, active_pose_bone := some exPB }

theorem claim3_witness :
    exCtxScaled.active_object = some exArmScaled ∧
    exCtxScaled.active_pose_bone = some exPB ∧
    exArmScaled.bones[exPB.boneIdx]? = some exBoneLen ∧
    exPB.custom_shape = some 0 ∧ exSt.objects[0]? = some exShape0 ∧
    (∃ st1 sh, execute exCtxScaled exSt = Except.ok (st1, "FINISHED") ∧
      st1.objects[0]? = some sh ∧
      sh.location = specShapeLocation exBoneLen exArmScaled ∧
      sh.rotation_euler = specShapeRotation exBoneLen exArmScaled ∧
      sh.scale = specShapeScale exBoneLen ∧
      ((exArmScaled.scale.x ≠ 1 ∨ exArmScaled.scale.y ≠ 1 ∨ exArmScaled.scale.z ≠ 1) →
        st1.reports = exSt.reports ++ [scaleWarning]) ∧
      (exArmScaled.scale = ⟨1, 1, 1⟩ → st1.reports = exSt.reports)) :=
  ⟨rfl, rfl, rfl, rfl, rfl,
    claim3_scale_warning_nonfatal exCtxScaled exSt exArmScaled exPB exBoneLen 0 exShape0
      rfl rfl rfl rfl rfl⟩

/-- Claim C6: invoking the operation twice in succession on unchanged
bone/armature data yields the same final shape transform and show-wire flags
as invoking it once — idempotence, guaranteed by the initial rotation reset
(the second run never reads the transform the first run wrote). -/
theorem claim6_idempotent (ctx : Ctx) (st : State) (arm : ArmatureObj)
    (pb : PoseBone) (bone : Bone) (oi : Nat) (sh0 : ShapeObject)
    (hao : ctx.active_object = some arm)
    (hpb : ctx.active_pose_bone = some pb)
    (hb : arm.bones[pb.boneIdx]? = some bone)
    (hcs : pb.custom_shape = some oi)
    (hsh : st.objects[oi]? = some sh0) :
    ∃ st1 st2, execute ctx st = Except.ok (st1, "FINISHED") ∧
      execute ctx st1 = Except.ok (st2, "FINISHED") ∧
      st2.objects = st1.objects ∧ st2.show_wire = st1.show_wire := by
  have hlt : oi < st.objects.length := (List.getElem?_eq_some_iff.mp hsh).1
  refine ⟨_, _, execute_ok ctx st arm pb bone oi sh0 hao hpb hb hcs hsh,
    execute_ok ctx _ arm pb bone oi (writtenShape bone arm) hao hpb hb hcs
      (List.getElem?_set_self hlt), ?_, ?_⟩
  · exact List.set_set _ _ _ _
  · exact List.set_set _ _ _ _

theorem claim6_witness :
    exCtx.active_object = some exArm ∧ exCtx.active_pose_bone = some exPB ∧
    exArm.bones[exPB.boneIdx]? = some exBone ∧ exPB.custom_shape = some 0 ∧
    exSt.objects[0]? = some exShape0 ∧
    (∃ st1 st2, execute exCtx exSt = Except.ok (st1, "FINISHED") ∧
      execute exCtx st1 = Except.ok (st2, "FINISHED") ∧
      st2.objects = st1.objects ∧ st2.show_wire = st1.show_wire) :=
  ⟨rfl, rfl, rfl, rfl, rfl,
    claim6_idempotent exCtx exSt exArm exPB exBone 0 exShape0 rfl rfl rfl rfl rfl⟩

/-- Root bone of the order-sensitivity fixture (quarter-turn about x). -/
def exBoneRootOrd : Bone :=
  boneWithBasis rotX ⟨0, 0, 0⟩ 1 none

/-- Middle bone of the order-sensitivity fixture (quarter-turn about y). -/
def exBoneMidOrd : Bone :=
  boneWithBasis rotY ⟨1, 1, 1⟩ 1 (some exBoneRootOrd)

/-- Target bone of the order-sensitivity fixture: two ancestors, quarter-turn
about z. -/
def exBoneOrd : Bone :=
  boneWithBasis rotZ ⟨2, 2, 2⟩ 1 (some exBoneMidOrd)

/-- Identity armature owning the order-sensitivity chain. -/
def exArmOrd : ArmatureObj :=
  { location := ⟨0, 0, 0⟩, rotation_euler := Mat3.idRot, scale := ⟨1, 1, 1⟩,
    bones := [exBoneOrd] }

/-- Claim C7: for a bone with two ancestors (chain length 3), every
permutation of the order in which the chain's rotations are folded in, other
than the target-first-to-root order, yields a different resulting shape
rotation — the composition is order-dependent. -/
theorem claim7_chain_order_sensitive :
    (specBoneChain exBoneOrd).length = 3 ∧
    ∀ l : List Bone, l.Perm (specBoneChain exBoneOrd) →
      l ≠ specBoneChain exBoneOrd →
      exArmOrd.rotation_euler.mul (rotAccum l Mat3.idRot) ≠
        specShapeRotation exBoneOrd exArmOrd := by
  refine ⟨rfl, ?_⟩
  intro l hperm hne
  obtain ⟨x, y, z, rfl⟩ := List.length_eq_three.mp hperm.length_eq
  have hchain : specBoneChain exBoneOrd = [exBoneOrd, exBoneMidOrd, exBoneRootOrd] := rfl
  rw [hchain] at hperm hne
  have hx : x ∈ [exBoneOrd, exBoneMidOrd, exBoneRootOrd] := hperm.subset (by simp)
  have hy : y ∈ [exBoneOrd, exBoneMidOrd, exBoneRootOrd] := hperm.subset (by simp)
  have hz : z ∈ [exBoneOrd, exBoneMidOrd, exBoneRootOrd] := hperm.subset (by simp)
  simp only [List.mem_cons, List.not_mem_nil, or_false] at hx hy hz
  rcases hx with rfl | rfl | rfl <;> rcases hy with rfl | rfl | rfl <;>
    rcases hz with rfl | rfl | rfl <;>
    first
      | exact absurd hperm (by decide)
      | exact absurd rfl hne
      | decide

theorem claim7_witness :
    ([exBoneMidOrd, exBoneOrd, exBoneRootOrd] : List Bone).Perm
      (specBoneChain exBoneOrd) ∧
    [exBoneMidOrd, exBoneOrd, exBoneRootOrd] ≠ specBoneChain exBoneOrd ∧
    exArmOrd.rotation_euler.mul
        (rotAccum [exBoneMidOrd, exBoneOrd, exBoneRootOrd] Mat3.idRot) ≠
      specShapeRotation exBoneOrd exArmOrd :=
  ⟨by decide, by decide,
    claim7_chain_order_sensitive.2 [exBoneMidOrd, exBoneOrd, exBoneRootOrd]
      (by decide) (by decide)⟩

/-- Claim C8: on every successful invocation, the only mutations are the shape
object's transform fields at the custom-shape index and the target bone's
show-wire flag (set to true): object and flag stores keep their lengths (no
entity created or destroyed) and every other entry is unchanged. -/
theorem claim8_frame (ctx : Ctx) (st : State) (arm : ArmatureObj)
    (pb : PoseBone) (bone : Bone) (oi : Nat) (sh0 : ShapeObject)
    (hao : ctx.active_object = some arm)
    (hpb : ctx.active_pose_bone = some pb)
    (hb : arm.bones[pb.boneIdx]? = some bone)
    (hcs : pb.custom_shape = some oi)
    (hsh : st.objects[oi]? = some sh0)
    (hbw : pb.boneIdx < st.show_wire.length) :
    ∃ st1, execute ctx st = Except.ok (st1, "FINISHED") ∧
      st1.objects.length = st.objects.length ∧
      st1.objects[oi]? = some (writtenShape bone arm) ∧
      (∀ j, j ≠ oi → st1.objects[j]? = st.objects[j]?) ∧
      st1.show_wire.length = st.show_wire.length ∧
      st1.show_wire[pb.boneIdx]? = some true ∧
      (∀ j, j ≠ pb.boneIdx → st1.show_wire[j]? = st.show_wire[j]?) := by
  have hlt : oi < st.objects.length := (List.getElem?_eq_some_iff.mp hsh).1
  refine ⟨_, execute_ok ctx st arm pb bone oi sh0 hao hpb hb hcs hsh,
    List.length_set .., List.getElem?_set_self hlt, ?_,
    List.length_set .., List.getElem?_set_self hbw, ?_⟩
  · intro j hj
    exact List.getElem?_set_ne (Ne.symm hj)
  · intro j hj
    exact List.getElem?_set_ne (Ne.symm hj)

/-- A second shape object and a second untouched bystander object. -/
def exShapeBystander : ShapeObject :=
  { location := ⟨8, 8, 8⟩, rotation_euler := rotX, scale := ⟨4, 4, 4⟩ }

/-- A two-object, two-bone state for the frame witness. -/
def exStTwo : State :=
  { objects := [exShape0, exShapeBystander], show_wire := [false, false],
    reports := [] }

theorem claim8_witness :
    exCtx.active_object = some exArm ∧ exCtx.active_pose_bone = some exPB ∧
    exArm.bones[exPB.boneIdx]? = some exBone ∧ exPB.custom_shape = some 0 ∧
    exStTwo.objects[0]? = some exShape0 ∧
    exPB.boneIdx < exStTwo.show_wire.length ∧
    (∃ st1, execute exCtx exStTwo = Except.ok (st1, "FINISHED") ∧
      st1.objects.length = exStTwo.objects.length ∧
      st1.objects[0]? = some (writtenShape exBone exArm) ∧
      (∀ j, j ≠ 0 → st1.objects[j]? = exStTwo.objects[j]?) ∧
      st1.show_wire.length = exStTwo.show_wire.length ∧
      st1.show_wire[exPB.boneIdx]? = some true ∧
      (∀ j, j ≠ exPB.boneIdx → st1.show_wire[j]? = exStTwo.show_wire[j]?)) :=
  ⟨rfl, rfl, rfl, rfl, rfl, by decide,
    claim8_frame exCtx exStTwo exArm exPB exBone 0 exShape0 rfl rfl rfl rfl rfl
      (by decide)⟩

/-- Claim C9: two invocations with identical bone and armature data but
arbitrary differing prior shape transforms write the identical final shape
transform — the output depends only on bone/armature data, never on the shape
object's previous transform state. -/
theorem claim9_noninterference (ctx : Ctx) (st st2 : State) (arm : ArmatureObj)
    (pb : PoseBone) (bone : Bone) (oi : Nat) (sh0 sh02 : ShapeObject)
    (hao : ctx.active_object = some arm)
    (hpb : ctx.active_pose_bone = some pb)
    (hb : arm.bones[pb.boneIdx]? = some bone)
    (hcs : pb.custom_shape = some oi)
    (hsh : st.objects[oi]? = some sh0)
    (hsh2 : st2.objects[oi]? = some sh02) :
    ∃ st1 st2', execute ctx st = Except.ok (st1, "FINISHED") ∧
      execute ctx st2 = Except.ok (st2', "FINISHED") ∧
      st1.objects[oi]? = st2'.objects[oi]? ∧
      st1.objects[oi]? = some (writtenShape bone arm) := by
  have hlt : oi < st.objects.length := (List.getElem?_eq_some_iff.mp hsh).1
  have hlt2 : oi < st2.objects.length := (List.getElem?_eq_some_iff.mp hsh2).1
  refine ⟨_, _, execute_ok ctx st arm pb bone oi sh0 hao hpb hb hcs hsh,
    execute_ok ctx st2 arm pb bone oi sh02 hao hpb hb hcs hsh2, ?_,
    List.getElem?_set_self hlt⟩
  rw [List.getElem?_set_self hlt, List.getElem?_set_self hlt2]

/-- A prior shape transform entirely different from `exShape0`. -/
def exShapeAlt : ShapeObject :=
  { location := ⟨-1, -2, -3⟩, rotation_euler := rotY, scale := ⟨5, 6, 7⟩ }

/-- A prior state differing from `exSt` in every mutable field. -/
def exStAlt : State :=
  { objects := [exShapeAlt], show_wire := [true], reports := [("INFO", "stale")] }

theorem claim9_witness :
    exCtx.active_object = some exArm ∧ exCtx.active_pose_bone = some exPB ∧
    exArm.bones[exPB.boneIdx]? = some exBone ∧ exPB.custom_shape = some 0 ∧
    exSt.objects[0]? = some exShape0 ∧ exStAlt.objects[0]? = some exShapeAlt ∧
    (∃ st1 st2', execute exCtx exSt = Except.ok (st1, "FINISHED") ∧
      execute exCtx exStAlt = Except.ok (st2', "FINISHED") ∧
      st1.objects[0]? = st2'.objects[0]? ∧
      st1.objects[0]? = some (writtenShape exBone exArm)) :=
  ⟨rfl, rfl, rfl, rfl, rfl, rfl,
    claim9_noninterference exCtx exSt exStAlt exArm exPB exBone 0 exShape0 exShapeAlt
      rfl rfl rfl rfl rfl rfl⟩

/-- Claim C10: every run of `execute` that returns (rather than raising) an
operator result returns exactly FINISHED — never CANCELLED or any failure
status, even when the armature-scale warning is reported. -/
theorem claim10_returns_finished (ctx : Ctx) (st st1 : State) (res : String)
    (h : execute ctx st = Except.ok (st1, res)) : res = "FINISHED" := by
  unfold execute at h
  repeat' split at h
  all_goals simp_all

theorem claim10_witness :
    execute exCtx exSt = Except.ok
      ({ objects := [writtenShape exBone exArm], show_wire := [true],
         reports := [] }, "FINISHED") ∧
    "FINISHED" = "FINISHED" :=
  ⟨rfl, claim10_returns_finished exCtx exSt
    { objects := [writtenShape exBone exArm], show_wire := [true], reports := [] }
    "FINISHED" rfl⟩

end OrientCustomShape
